import Mathlib

/-!
Verification of the SynIC connection-port registry (`vmm_core/src/synic.rs`).

The registry maps a 32-bit connection id to a registered port (message or
event variant) together with a minimum VTL gate.  Dispatch
(`on_post_message`, `on_signal_event`) looks the entry up under the lock,
clones it, drops the lock and only then invokes the handler.  Registration
(`add_message_port`, `add_event_port`) inserts into the map and returns a
handle whose drop removes the entry.

The embedding is a shallow one: the hash map becomes a function
`Nat → Option Port`, handlers become pure functions paired with an identity
tag, side effects (handler invocations, lock acquire/release, partition
capability calls) become explicit event traces returned next to the result,
and fallible operations return `Except`.
-/

namespace Synic

/-- Virtual trust levels, ordered by their discriminant as in `hvdef::Vtl`. -/
inductive Vtl
  | vtl0
  | vtl1
  | vtl2
deriving DecidableEq

/-- Discriminant of a VTL; `hvdef::Vtl` derives `Ord` on this value. -/
def Vtl.toNat : Vtl → Nat
  | Vtl.vtl0 => 0
  | Vtl.vtl1 => 1
  | Vtl.vtl2 => 2

/-- The subset of `HvError` variants used by `synic.rs` dispatch. -/
inductive HvError
  | OperationDenied
  | InvalidConnectionId
  | InsufficientBuffers
deriving DecidableEq

/-- The subset of `vmcore::synic::Error` used by registration: the
`ConnectionIdInUse` variant, and an opaque host/hypervisor error used to
model whatever error `Synic::new_host_event_port` may return. -/
inductive SynicError
  | ConnectionIdInUse (id : Nat)
  | Hypervisor (code : Nat)
deriving DecidableEq

/-- A `MessagePort` trait object: an identity tag (standing for the `Arc`
pointer identity) and the pure `handle_message` behaviour, returning `true`
on success and `false` when out of buffer space. -/
structure MessagePort where
  pid : Nat
  handleMessage : List Nat → Bool → Bool

/-- An `EventPort` trait object: an identity tag and the optional native OS
event exposed by `os_event` (the `handle_event` call is fire-and-forget, so
only its invocation is recorded, in the event trace). -/
structure EventPort where
  pid : Nat
  osEvent : Option Nat

/-- `PortType`: the tagged union over the two trait objects. -/
inductive PortType
  | message (p : MessagePort)
  | event (p : EventPort)

/-- `Port`: a registered entry, the variant plus its minimum-VTL gate. -/
structure Port where
  port_type : PortType
  minimum_vtl : Vtl

/-- The shared map `Mutex<HashMap<u32, Port>>`, as a function. -/
def PortMap : Type := Nat → Option Port

/-- The empty map (`Default::default()`). -/
def PortMap.empty : PortMap := fun _ => none

/-- `HashMap` insertion through the vacant-entry API. -/
def PortMap.insert (m : PortMap) (c : Nat) (p : Port) : PortMap :=
  fun c' => if c' = c then some p else m c'

/-- `HashMap::remove`. -/
def PortMap.remove (m : PortMap) (c : Nat) : PortMap :=
  fun c' => if c' = c then none else m c'

/-- A recorded invocation of a port handler: which port (by identity tag)
and with which arguments. -/
inductive HandlerCall
  | message (portId : Nat) (payload : List Nat) (secure : Bool)
  | event (portId : Nat) (flag : Nat)
deriving DecidableEq

/-- Events emitted by a dispatch call: taking and releasing the registry
lock, and handler invocations.  The lock guard in the source is a temporary
dropped at the end of the lookup statement, so acquire/release bracket only
the lookup. -/
inductive Ev
  | lockAcquire
  | lockRelease
  | handler (c : HandlerCall)
deriving DecidableEq

/-- The handler invocations contained in a dispatch event trace. -/
def handlerCalls : List Ev → List HandlerCall
  | [] => []
  | Ev.handler c :: rest => c :: handlerCalls rest
  | _ :: rest => handlerCalls rest

/-- `SynicPorts::on_post_message`: look up and clone the entry under the
lock, release the lock, then gate on VTL and invoke the message handler.
Returns the `HvResult` and the event trace. -/
def on_post_message (ports : PortMap) (vtl : Vtl) (connection_id : Nat)
    (secure : Bool) (message : List Nat) : Except HvError Unit × List Ev :=
  let port := ports connection_id
  match port with
  | some ⟨PortType.message p, minimum_vtl⟩ =>
    if vtl.toNat < minimum_vtl.toNat then
      (Except.error HvError.OperationDenied, [Ev.lockAcquire, Ev.lockRelease])
    else if p.handleMessage message secure then
      (Except.ok (),
        [Ev.lockAcquire, Ev.lockRelease,
          Ev.handler (HandlerCall.message p.pid message secure)])
    else
      (Except.error HvError.InsufficientBuffers,
        [Ev.lockAcquire, Ev.lockRelease,
          Ev.handler (HandlerCall.message p.pid message secure)])
  | _ => (Except.error HvError.InvalidConnectionId, [Ev.lockAcquire, Ev.lockRelease])

/-- `SynicPorts::on_signal_event`: same lookup/VTL-gate shape for the event
variant; the event handler cannot fail. -/
def on_signal_event (ports : PortMap) (vtl : Vtl) (connection_id : Nat)
    (flag_number : Nat) : Except HvError Unit × List Ev :=
  let port := ports connection_id
  match port with
  | some ⟨PortType.event p, minimum_vtl⟩ =>
    if vtl.toNat < minimum_vtl.toNat then
      (Except.error HvError.OperationDenied, [Ev.lockAcquire, Ev.lockRelease])
    else
      (Except.ok (),
        [Ev.lockAcquire, Ev.lockRelease,
          Ev.handler (HandlerCall.event p.pid flag_number)])
  | _ => (Except.error HvError.InvalidConnectionId, [Ev.lockAcquire, Ev.lockRelease])

/-- The partition capability (`Arc<dyn Synic>`) as consumed by the
registry: `new_host_event_port` may fail, or return an optional inner
handle (modelled by a tag). -/
structure Partition where
  newHostEventPort : Nat → Vtl → Nat → Except SynicError (Option Nat)

/-- A recorded call into the partition capability. -/
inductive CapCall
  | newHostEventPort (connection_id : Nat) (minimum_vtl : Vtl) (event : Nat)
deriving DecidableEq

/-- `PortHandle`: the registration handle, holding the connection id it
owns and the optional host fast-path inner handle. -/
structure PortHandle where
  connection_id : Nat
  innerHandle : Option Nat
deriving DecidableEq

/-- `SynicPortAccess::add_message_port`: occupied entry is an error, vacant
entry gets the new port inserted and a handle returned. -/
def add_message_port (ports : PortMap) (connection_id : Nat)
    (minimum_vtl : Vtl) (port : MessagePort) :
    Except SynicError (PortHandle × PortMap) :=
  match ports connection_id with
  | some _ => Except.error (SynicError.ConnectionIdInUse connection_id)
  | none =>
    Except.ok (⟨connection_id, none⟩,
      PortMap.insert ports connection_id ⟨PortType.message port, minimum_vtl⟩)

/-- `SynicPortAccess::add_event_port`: if the port exposes an OS event the
host event port is created through the partition capability FIRST (its
error propagated by `?`), and only then is the map entry checked and
inserted.  Returns the result and the trace of capability calls made. -/
def add_event_port (partition : Partition) (ports : PortMap)
    (connection_id : Nat) (minimum_vtl : Vtl) (port : EventPort) :
    Except SynicError (PortHandle × PortMap) × List CapCall :=
  match port.osEvent with
  | some event =>
    (match partition.newHostEventPort connection_id minimum_vtl event with
     | Except.error e => Except.error e
     | Except.ok inner_handle =>
       match ports connection_id with
       | some _ => Except.error (SynicError.ConnectionIdInUse connection_id)
       | none =>
         Except.ok (⟨connection_id, inner_handle⟩,
           PortMap.insert ports connection_id
             ⟨PortType.event port, minimum_vtl⟩),
     [CapCall.newHostEventPort connection_id minimum_vtl event])
  | none =>
    (match ports connection_id with
     | some _ => Except.error (SynicError.ConnectionIdInUse connection_id)
     | none =>
       Except.ok (⟨connection_id, none⟩,
         PortMap.insert ports connection_id ⟨PortType.event port, minimum_vtl⟩),
     [])

/-- Outcome of `Drop for PortHandle`: no-op when the weak reference to the
registry is dead, removal of the entry when present, or the
`expect("port was previously added")` panic when the entry is absent while
the registry is alive. -/
inductive DropResult
  | noop
  | removed (m : PortMap)
  | panicked

/-- `Drop for PortHandle`: upgrade the weak reference (here: the optional
live map); if alive, remove the entry and assert it existed. -/
def portHandleDrop (registry : Option PortMap) (h : PortHandle) : DropResult :=
  match registry with
  | none => DropResult.noop
  | some ports =>
    match ports h.connection_id with
    | some _ => DropResult.removed (PortMap.remove ports h.connection_id)
    | none => DropResult.panicked

/-! Concrete fixtures used by witnesses and counterexamples. -/

/-- A message port whose handler always accepts. -/
def exMsgPort : MessagePort := ⟨100, fun _ _ => true⟩

/-- A message port whose handler always reports no buffer space. -/
def exMsgPortFull : MessagePort := ⟨101, fun _ _ => false⟩

/-- An event port exposing a native OS event. -/
def exEvtPort : EventPort := ⟨200, some 3⟩

/-- An event port with no native OS event. -/
def exEvtPortNoOs : EventPort := ⟨201, none⟩

/-- A partition whose host event-port creation always succeeds. -/
def exPartitionOk : Partition := ⟨fun _ _ _ => Except.ok (some 1)⟩

/-- A partition whose host event-port creation always fails. -/
def exPartitionFail : Partition := ⟨fun _ _ _ => Except.error (SynicError.Hypervisor 9)⟩

/-- A map with a single message port at connection id 5, minimum VTL 1. -/
def exMapGate : PortMap :=
  PortMap.insert PortMap.empty 5 ⟨PortType.message exMsgPort, Vtl.vtl1⟩

/-- A map with a single event port at connection id 7, minimum VTL 2. -/
def exMapEvt : PortMap :=
  PortMap.insert PortMap.empty 7 ⟨PortType.event exEvtPortNoOs, Vtl.vtl2⟩

/-- C1: for a connection id registered with minimum VTL `m` and a dispatch of
the matching kind, a caller VTL strictly below `m` gets `OperationDenied`
and the handler is not invoked, while a caller VTL at or above `m` passes
the gate: the handler is invoked and the result is not `OperationDenied`
(for events it is `Ok`). -/
theorem vtl_gate_dispatch (ports : PortMap) (c : Nat) (m : Vtl) (vtl : Vtl)
    (secure : Bool) (msg : List Nat) (flag : Nat) :
    (∀ p, ports c = some ⟨PortType.message p, m⟩ →
      (vtl.toNat < m.toNat →
        (on_post_message ports vtl c secure msg).1
          = Except.error HvError.OperationDenied ∧
        handlerCalls (on_post_message ports vtl c secure msg).2 = []) ∧
      (m.toNat ≤ vtl.toNat →
        handlerCalls (on_post_message ports vtl c secure msg).2
          = [HandlerCall.message p.pid msg secure] ∧
        (on_post_message ports vtl c secure msg).1
          ≠ Except.error HvError.OperationDenied)) ∧
    (∀ p, ports c = some ⟨PortType.event p, m⟩ →
      (vtl.toNat < m.toNat →
        (on_signal_event ports vtl c flag).1
          = Except.error HvError.OperationDenied ∧
        handlerCalls (on_signal_event ports vtl c flag).2 = []) ∧
      (m.toNat ≤ vtl.toNat →
        handlerCalls (on_signal_event ports vtl c flag).2
          = [HandlerCall.event p.pid flag] ∧
        (on_signal_event ports vtl c flag).1 = Except.ok ())) := by
  constructor
  · intro p hp
    refine ⟨fun hlt => ?_, fun hge => ?_⟩
    · simp [on_post_message, hp, hlt, handlerCalls]
    · have hnlt : ¬ vtl.toNat < m.toNat := Nat.not_lt.mpr hge
      cases hb : p.handleMessage msg secure with
      | false => simp [on_post_message, hp, hnlt, hb, handlerCalls]
      | true => simp [on_post_message, hp, hnlt, hb, handlerCalls]
  · intro p hp
    refine ⟨fun hlt => ?_, fun hge => ?_⟩
    · simp [on_signal_event, hp, hlt, handlerCalls]
    · have hnlt : ¬ vtl.toNat < m.toNat := Nat.not_lt.mpr hge
      simp [on_signal_event, hp, hnlt, handlerCalls]

/-- C1 witness: with a message port at id 5 gated at VTL1, dispatch from
VTL0 is denied with no handler call, and dispatch from VTL1 invokes the
handler. -/
theorem vtl_gate_dispatch_witness :
    ((on_post_message exMapGate Vtl.vtl0 5 false [1]).1
        = Except.error HvError.OperationDenied ∧
      handlerCalls (on_post_message exMapGate Vtl.vtl0 5 false [1]).2 = []) ∧
    (handlerCalls (on_post_message exMapGate Vtl.vtl1 5 false [1]).2
        = [HandlerCall.message 100 [1] false] ∧
      (on_post_message exMapGate Vtl.vtl1 5 false [1]).1
        ≠ Except.error HvError.OperationDenied) :=
  ⟨((vtl_gate_dispatch exMapGate 5 Vtl.vtl1 Vtl.vtl0 false [1] 0).1 exMsgPort rfl).1
      (by decide),
    ((vtl_gate_dispatch exMapGate 5 Vtl.vtl1 Vtl.vtl1 false [1] 0).1 exMsgPort rfl).2
      (by decide)⟩

/-- C2 counterexample: registering an event port that exposes an OS event
on an already-occupied connection id does return `ConnectionIdInUse`, but
the partition capability IS invoked to create the host event binding (the
source calls `new_host_event_port` before checking the map), contradicting
the claim that no host-level fast-path binding is created for the failed
registration. -/
theorem add_event_port_in_use_calls_capability :
    (add_event_port exPartitionOk exMapGate 5 Vtl.vtl0 exEvtPort).1
      = Except.error (SynicError.ConnectionIdInUse 5) ∧
    (add_event_port exPartitionOk exMapGate 5 Vtl.vtl0 exEvtPort).2
      = [CapCall.newHostEventPort 5 Vtl.vtl0 3] := ⟨rfl, rfl⟩

/-- C2 (amended): registering an event port on an occupied connection id
returns `ConnectionIdInUse` and produces no new map (so the registry is
unchanged); however the partition capability is invoked exactly when the
port exposes an OS event, because the host binding is created before the
occupancy check (it is torn down again when the error drops the handle). -/
theorem add_event_port_in_use (partition : Partition) (ports : PortMap)
    (c : Nat) (m : Vtl) (port : EventPort) (p0 : Port)
    (hocc : ports c = some p0)
    (hcap : ∀ ev, port.osEvent = some ev →
      ∃ ih, partition.newHostEventPort c m ev = Except.ok ih) :
    (add_event_port partition ports c m port).1
      = Except.error (SynicError.ConnectionIdInUse c) ∧
    ((add_event_port partition ports c m port).2 = [] ↔ port.osEvent = none) := by
  cases hos : port.osEvent with
  | none => simp [add_event_port, hos, hocc]
  | some ev =>
    obtain ⟨ih, hih⟩ := hcap ev hos
    simp [add_event_port, hos, hih, hocc]

/-- C2 amended witness: the occupied-id event registration at id 5 fails
with `ConnectionIdInUse`, and its capability trace is empty exactly when
the port exposes no OS event. -/
theorem add_event_port_in_use_witness :
    (add_event_port exPartitionOk exMapGate 5 Vtl.vtl0 exEvtPort).1
      = Except.error (SynicError.ConnectionIdInUse 5) ∧
    ((add_event_port exPartitionOk exMapGate 5 Vtl.vtl0 exEvtPort).2 = []
        ↔ exEvtPort.osEvent = none) :=
  add_event_port_in_use exPartitionOk exMapGate 5 Vtl.vtl0 exEvtPort
    ⟨PortType.message exMsgPort, Vtl.vtl1⟩ rfl (fun _ _ => ⟨some 1, rfl⟩)

/-- C3: for every caller VTL, a post-message against an id that is absent
or registered as an event port, and a signal-event against an id that is
absent or registered as a message port, return `InvalidConnectionId` and
invoke no handler. -/
theorem dispatch_invalid_connection (ports : PortMap) (c : Nat) (vtl : Vtl)
    (secure : Bool) (msg : List Nat) (flag : Nat) :
    ((ports c = none ∨ ∃ p m, ports c = some ⟨PortType.event p, m⟩) →
      on_post_message ports vtl c secure msg
        = (Except.error HvError.InvalidConnectionId,
            [Ev.lockAcquire, Ev.lockRelease]) ∧
      handlerCalls (on_post_message ports vtl c secure msg).2 = []) ∧
    ((ports c = none ∨ ∃ p m, ports c = some ⟨PortType.message p, m⟩) →
      on_signal_event ports vtl c flag
        = (Except.error HvError.InvalidConnectionId,
            [Ev.lockAcquire, Ev.lockRelease]) ∧
      handlerCalls (on_signal_event ports vtl c flag).2 = []) := by
  constructor
  · rintro (hc | ⟨p, m, hc⟩)
    · simp [on_post_message, hc, handlerCalls]
    · simp [on_post_message, hc, handlerCalls]
  · rintro (hc | ⟨p, m, hc⟩)
    · simp [on_signal_event, hc, handlerCalls]
    · simp [on_signal_event, hc, handlerCalls]

/-- C3 witness: dispatch to the unregistered id 99 and a signal-event
against the message port at id 5 both return `InvalidConnectionId`. -/
theorem dispatch_invalid_connection_witness :
    (on_post_message exMapGate Vtl.vtl2 99 false []
        = (Except.error HvError.InvalidConnectionId,
            [Ev.lockAcquire, Ev.lockRelease]) ∧
      handlerCalls (on_post_message exMapGate Vtl.vtl2 99 false []).2 = []) ∧
    (on_signal_event exMapGate Vtl.vtl2 5 0
        = (Except.error HvError.InvalidConnectionId,
            [Ev.lockAcquire, Ev.lockRelease]) ∧
      handlerCalls (on_signal_event exMapGate Vtl.vtl2 5 0).2 = []) :=
  ⟨(dispatch_invalid_connection exMapGate 99 Vtl.vtl2 false [] 0).1 (Or.inl rfl),
    (dispatch_invalid_connection exMapGate 5 Vtl.vtl2 false [] 0).2
      (Or.inr ⟨exMsgPort, Vtl.vtl1, rfl⟩)⟩

/-- C4: when the lookup matches and the VTL gate passes, post-message
invokes the message handler with the payload and secure flag and maps the
handler boolean to `Ok` / `InsufficientBuffers`; signal-event invokes the
event handler with the flag number and always returns `Ok`. -/
theorem dispatch_success_mapping (ports : PortMap) (c : Nat) (m : Vtl)
    (vtl : Vtl) (secure : Bool) (msg : List Nat) (flag : Nat) :
    (∀ p, ports c = some ⟨PortType.message p, m⟩ → m.toNat ≤ vtl.toNat →
      on_post_message ports vtl c secure msg
        = (if p.handleMessage msg secure then Except.ok ()
            else Except.error HvError.InsufficientBuffers,
          [Ev.lockAcquire, Ev.lockRelease,
            Ev.handler (HandlerCall.message p.pid msg secure)])) ∧
    (∀ p, ports c = some ⟨PortType.event p, m⟩ → m.toNat ≤ vtl.toNat →
      on_signal_event ports vtl c flag
        = (Except.ok (),
          [Ev.lockAcquire, Ev.lockRelease,
            Ev.handler (HandlerCall.event p.pid flag)])) := by
  constructor
  · intro p hp hge
    have hnlt : ¬ vtl.toNat < m.toNat := Nat.not_lt.mpr hge
    cases hb : p.handleMessage msg secure with
    | false => simp [on_post_message, hp, hnlt, hb]
    | true => simp [on_post_message, hp, hnlt, hb]
  · intro p hp hge
    have hnlt : ¬ vtl.toNat < m.toNat := Nat.not_lt.mpr hge
    simp [on_signal_event, hp, hnlt]

/-- C4 witness: the accepting message handler at id 5 yields `Ok` with its
invocation recorded; the event port at id 7 signalled from VTL2 yields `Ok`
with the flag delivered. -/
theorem dispatch_success_mapping_witness :
    on_post_message exMapGate Vtl.vtl1 5 true [2]
      = (Except.ok (),
          [Ev.lockAcquire, Ev.lockRelease,
            Ev.handler (HandlerCall.message 100 [2] true)]) ∧
    on_signal_event exMapEvt Vtl.vtl2 7 3
      = (Except.ok (),
          [Ev.lockAcquire, Ev.lockRelease,
            Ev.handler (HandlerCall.event 201 3)]) :=
  ⟨(dispatch_success_mapping exMapGate 5 Vtl.vtl1 Vtl.vtl1 true [2] 0).1
      exMsgPort rfl (by decide),
    (dispatch_success_mapping exMapEvt 7 Vtl.vtl2 Vtl.vtl2 true [2] 3).2
      exEvtPortNoOs rfl (by decide)⟩

/-- C5: when the port exposes an OS event and the partition capability's
host event-port creation fails, `add_event_port` returns that error and no
`(handle, map)` pair is produced, so the registry map is exactly as before
the call. -/
theorem add_event_port_capability_failure (partition : Partition)
    (ports : PortMap) (c : Nat) (m : Vtl) (port : EventPort) (ev : Nat)
    (e : SynicError)
    (hos : port.osEvent = some ev)
    (hfail : partition.newHostEventPort c m ev = Except.error e) :
    (add_event_port partition ports c m port).1 = Except.error e := by
  simp [add_event_port, hos, hfail]

/-- C5 witness: with the always-failing partition, registering the
OS-event port on the empty map propagates the host error. -/
theorem add_event_port_capability_failure_witness :
    (add_event_port exPartitionFail PortMap.empty 8 Vtl.vtl0 exEvtPort).1
      = Except.error (SynicError.Hypervisor 9) :=
  add_event_port_capability_failure exPartitionFail PortMap.empty 8 Vtl.vtl0
    exEvtPort 3 (SynicError.Hypervisor 9) rfl rfl

/-- C6: with connection id `c` occupied by a first registration `p0`, a
second registration of `c` through either `add_message_port` or
`add_event_port` (its host-binding creation, when needed, succeeding)
fails with `ConnectionIdInUse`; no new map is produced, and the first
registration is still reachable by dispatch of its kind under its original
minimum VTL. -/
theorem connection_id_uniqueness (partition : Partition) (ports : PortMap)
    (c : Nat) (p0 : Port) (m2 : Vtl) (pm : MessagePort) (pe : EventPort)
    (vtl : Vtl) (secure : Bool) (msg : List Nat) (flag : Nat)
    (hocc : ports c = some p0)
    (hcap : ∀ ev, pe.osEvent = some ev →
      ∃ ih, partition.newHostEventPort c m2 ev = Except.ok ih) :
    add_message_port ports c m2 pm
      = Except.error (SynicError.ConnectionIdInUse c) ∧
    (add_event_port partition ports c m2 pe).1
      = Except.error (SynicError.ConnectionIdInUse c) ∧
    (∀ q mv, p0 = ⟨PortType.message q, mv⟩ → mv.toNat ≤ vtl.toNat →
      handlerCalls (on_post_message ports vtl c secure msg).2
        = [HandlerCall.message q.pid msg secure]) ∧
    (∀ q mv, p0 = ⟨PortType.event q, mv⟩ → mv.toNat ≤ vtl.toNat →
      handlerCalls (on_signal_event ports vtl c flag).2
        = [HandlerCall.event q.pid flag]) := by
  refine ⟨?_, ?_, ?_, ?_⟩
  · simp [add_message_port, hocc]
  · cases hos : pe.osEvent with
    | none => simp [add_event_port, hos, hocc]
    | some ev =>
      obtain ⟨ih, hih⟩ := hcap ev hos
      simp [add_event_port, hos, hih, hocc]
  · intro q mv hq hge
    subst hq
    have hnlt : ¬ vtl.toNat < mv.toNat := Nat.not_lt.mpr hge
    cases hb : q.handleMessage msg secure with
    | false => simp [on_post_message, hocc, hnlt, hb, handlerCalls]
    | true => simp [on_post_message, hocc, hnlt, hb, handlerCalls]
  · intro q mv hq hge
    subst hq
    have hnlt : ¬ vtl.toNat < mv.toNat := Nat.not_lt.mpr hge
    simp [on_signal_event, hocc, hnlt, handlerCalls]

/-- C6 witness: re-registering id 5 (occupied by the message port gated at
VTL1) fails both ways with `ConnectionIdInUse`, and the first handler is
still invoked by a post-message from VTL2. -/
theorem connection_id_uniqueness_witness :
    add_message_port exMapGate 5 Vtl.vtl0 exMsgPortFull
      = Except.error (SynicError.ConnectionIdInUse 5) ∧
    (add_event_port exPartitionOk exMapGate 5 Vtl.vtl0 exEvtPortNoOs).1
      = Except.error (SynicError.ConnectionIdInUse 5) ∧
    handlerCalls (on_post_message exMapGate Vtl.vtl2 5 false [4]).2
      = [HandlerCall.message 100 [4] false] :=
  have h := connection_id_uniqueness exPartitionOk exMapGate 5
    ⟨PortType.message exMsgPort, Vtl.vtl1⟩ Vtl.vtl0 exMsgPortFull exEvtPortNoOs
    Vtl.vtl2 false [4] 0 rfl (fun _ hv => Option.noConfusion hv)
  ⟨h.1, h.2.1, h.2.2.1 exMsgPort Vtl.vtl1 rfl (by decide)⟩

/-- C7: dropping a `PortHandle` is a no-op when the registry's shared map
is already gone; when the registry is alive and the handle's entry is
present, the drop removes exactly that entry; when the registry is alive
but the entry is absent, the `expect` assertion fails (a panic, not a
recoverable error). -/
theorem port_handle_drop_spec (ports : PortMap) (h : PortHandle) :
    portHandleDrop none h = DropResult.noop ∧
    (∀ p, ports h.connection_id = some p →
      portHandleDrop (some ports) h
        = DropResult.removed (PortMap.remove ports h.connection_id)) ∧
    (ports h.connection_id = none →
      portHandleDrop (some ports) h = DropResult.panicked) := by
  refine ⟨rfl, ?_, ?_⟩
  · intro p hp
    simp [portHandleDrop, hp]
  · intro hp
    simp [portHandleDrop, hp]

/-- C7 witness: with the registry dead the drop of handle 5 is a no-op;
alive, dropping handle 5 removes its entry, and dropping a handle for the
absent id 6 panics. -/
theorem port_handle_drop_spec_witness :
    portHandleDrop none ⟨5, none⟩ = DropResult.noop ∧
    portHandleDrop (some exMapGate) ⟨5, none⟩
      = DropResult.removed (PortMap.remove exMapGate 5) ∧
    portHandleDrop (some exMapGate) ⟨6, none⟩ = DropResult.panicked :=
  have h1 := port_handle_drop_spec exMapGate ⟨5, none⟩
  have h2 := port_handle_drop_spec exMapGate ⟨6, none⟩
  ⟨h1.1, h1.2.1 ⟨PortType.message exMsgPort, Vtl.vtl1⟩ rfl, h2.2.2 rfl⟩

/-- C8: releasing the handle for a registered id `c` with the registry
alive removes the entry; afterwards every dispatch to `c` returns
`InvalidConnectionId`, and re-registering `c` as either port kind succeeds
(for an event port, provided the host-binding creation, when needed,
succeeds). -/
theorem unregister_round_trip (partition : Partition) (ports : PortMap)
    (c : Nat) (h : PortHandle) (p0 : Port) (vtl : Vtl) (secure : Bool)
    (msg : List Nat) (flag : Nat) (m2 : Vtl) (pm : MessagePort)
    (pe : EventPort)
    (hid : h.connection_id = c)
    (hocc : ports c = some p0) :
    portHandleDrop (some ports) h
      = DropResult.removed (PortMap.remove ports c) ∧
    (on_post_message (PortMap.remove ports c) vtl c secure msg).1
      = Except.error HvError.InvalidConnectionId ∧
    (on_signal_event (PortMap.remove ports c) vtl c flag).1
      = Except.error HvError.InvalidConnectionId ∧
    add_message_port (PortMap.remove ports c) c m2 pm
      = Except.ok (⟨c, none⟩,
          PortMap.insert (PortMap.remove ports c) c
            ⟨PortType.message pm, m2⟩) ∧
    (∀ ev ih, pe.osEvent = some ev →
      partition.newHostEventPort c m2 ev = Except.ok ih →
      (add_event_port partition (PortMap.remove ports c) c m2 pe).1
        = Except.ok (⟨c, ih⟩,
            PortMap.insert (PortMap.remove ports c) c
              ⟨PortType.event pe, m2⟩)) ∧
    (pe.osEvent = none →
      (add_event_port partition (PortMap.remove ports c) c m2 pe).1
        = Except.ok (⟨c, none⟩,
            PortMap.insert (PortMap.remove ports c) c
              ⟨PortType.event pe, m2⟩)) := by
  have hrm : PortMap.remove ports c c = none := by simp [PortMap.remove]
  refine ⟨?_, ?_, ?_, ?_, ?_, ?_⟩
  · simp [portHandleDrop, hid, hocc]
  · simp [on_post_message, hrm]
  · simp [on_signal_event, hrm]
  · simp [add_message_port, hrm]
  · intro ev ih hos hok
    simp [add_event_port, hos, hok, hrm]
  · intro hos
    simp [add_event_port, hos, hrm]

/-- C8 witness: dropping the handle for id 5 on the one-entry map removes
it, dispatch to 5 then fails with `InvalidConnectionId`, and re-registering
5 as a message port succeeds. -/
theorem unregister_round_trip_witness :
    portHandleDrop (some exMapGate) ⟨5, none⟩
      = DropResult.removed (PortMap.remove exMapGate 5) ∧
    (on_post_message (PortMap.remove exMapGate 5) Vtl.vtl2 5 false []).1
      = Except.error HvError.InvalidConnectionId ∧
    (on_signal_event (PortMap.remove exMapGate 5) Vtl.vtl2 5 0).1
      = Except.error HvError.InvalidConnectionId ∧
    add_message_port (PortMap.remove exMapGate 5) 5 Vtl.vtl0 exMsgPort
      = Except.ok (⟨5, none⟩,
          PortMap.insert (PortMap.remove exMapGate 5) 5
            ⟨PortType.message exMsgPort, Vtl.vtl0⟩) :=
  have h := unregister_round_trip exPartitionOk exMapGate 5 ⟨5, none⟩
    ⟨PortType.message exMsgPort, Vtl.vtl1⟩ Vtl.vtl2 false [] 0 Vtl.vtl0
    exMsgPort exEvtPortNoOs rfl rfl
  ⟨h.1, h.2.1, h.2.2.1, h.2.2.2.1⟩

/-- C9: every dispatch trace is lock-acquire, lock-release, then only
handler invocations — the lock is never held across a call into a port's
handler.  Consequently a handler that re-enters the registry during its own
invocation (for example registering an event port on a different, free id)
completes: the registry operation succeeds on the state the handler sees. -/
theorem lock_released_before_handler (ports : PortMap) (vtl : Vtl) (c : Nat)
    (secure : Bool) (msg : List Nat) (flag : Nat) :
    (∃ hcs : List HandlerCall,
      (on_post_message ports vtl c secure msg).2
        = Ev.lockAcquire :: Ev.lockRelease :: hcs.map Ev.handler) ∧
    (∃ hcs : List HandlerCall,
      (on_signal_event ports vtl c flag).2
        = Ev.lockAcquire :: Ev.lockRelease :: hcs.map Ev.handler) ∧
    (∀ partition c' mv pe, c' ≠ c → ports c' = none → pe.osEvent = none →
      (add_event_port partition ports c' mv pe).1
        = Except.ok (⟨c', none⟩,
            PortMap.insert ports c' ⟨PortType.event pe, mv⟩)) := by
  refine ⟨?_, ?_, ?_⟩
  · cases hc : ports c with
    | none => exact ⟨[], by simp [on_post_message, hc]⟩
    | some p =>
      obtain ⟨pt, mv⟩ := p
      cases pt with
      | message q =>
        by_cases hlt : vtl.toNat < mv.toNat
        · exact ⟨[], by simp [on_post_message, hc, hlt]⟩
        · cases hb : q.handleMessage msg secure with
          | false =>
            exact ⟨[HandlerCall.message q.pid msg secure],
              by simp [on_post_message, hc, hlt, hb]⟩
          | true =>
            exact ⟨[HandlerCall.message q.pid msg secure],
              by simp [on_post_message, hc, hlt, hb]⟩
      | event q => exact ⟨[], by simp [on_post_message, hc]⟩
  · cases hc : ports c with
    | none => exact ⟨[], by simp [on_signal_event, hc]⟩
    | some p =>
      obtain ⟨pt, mv⟩ := p
      cases pt with
      | message q => exact ⟨[], by simp [on_signal_event, hc]⟩
      | event q =>
        by_cases hlt : vtl.toNat < mv.toNat
        · exact ⟨[], by simp [on_signal_event, hc, hlt]⟩
        · exact ⟨[HandlerCall.event q.pid flag],
            by simp [on_signal_event, hc, hlt]⟩
  · intro partition c' mv pe hne hfree hos
    simp [add_event_port, hos, hfree]

/-- C9 witness: while the message port at id 5 is being dispatched, the
free id 6 can be registered as an event port — the re-entrant registration
succeeds against the state the handler observes. -/
theorem lock_released_before_handler_witness :
    (add_event_port exPartitionOk exMapGate 6 Vtl.vtl0 exEvtPortNoOs).1
      = Except.ok (⟨6, none⟩,
          PortMap.insert exMapGate 6 ⟨PortType.event exEvtPortNoOs, Vtl.vtl0⟩) :=
  (lock_released_before_handler exMapGate Vtl.vtl1 5 false [1] 0).2.2
    exPartitionOk 6 Vtl.vtl0 exEvtPortNoOs (by decide) rfl rfl

/-- C10: a successful registration of id `c` (either kind) produces a map
holding exactly the new entry at `c` and the old entry at every other id;
a drop that removes `c` produces a map with nothing at `c` and the old
entry at every other id. -/
theorem registration_frame_effect (partition : Partition) (ports : PortMap)
    (c : Nat) (m : Vtl) (pm : MessagePort) (pe : EventPort)
    (hdl : PortHandle) (mm : PortMap) (h : PortHandle) :
    (add_message_port ports c m pm = Except.ok (hdl, mm) →
      mm c = some ⟨PortType.message pm, m⟩ ∧ ∀ d, d ≠ c → mm d = ports d) ∧
    ((add_event_port partition ports c m pe).1 = Except.ok (hdl, mm) →
      mm c = some ⟨PortType.event pe, m⟩ ∧ ∀ d, d ≠ c → mm d = ports d) ∧
    (portHandleDrop (some ports) h = DropResult.removed mm →
      mm h.connection_id = none ∧
      ∀ d, d ≠ h.connection_id → mm d = ports d) := by
  refine ⟨?_, ?_, ?_⟩
  · intro hok
    cases hc : ports c with
    | some p => simp [add_message_port, hc] at hok
    | none =>
      rw [add_message_port, hc] at hok
      simp only [Except.ok.injEq, Prod.mk.injEq] at hok
      obtain ⟨-, hmm⟩ := hok
      subst hmm
      exact ⟨by simp [PortMap.insert],
        fun d hd => by simp [PortMap.insert, hd]⟩
  · intro hok
    cases hos : pe.osEvent with
    | none =>
      cases hc : ports c with
      | some p => simp [add_event_port, hos, hc] at hok
      | none =>
        simp only [add_event_port, hos, hc, Except.ok.injEq, Prod.mk.injEq]
          at hok
        obtain ⟨-, hmm⟩ := hok
        subst hmm
        exact ⟨by simp [PortMap.insert],
          fun d hd => by simp [PortMap.insert, hd]⟩
    | some ev =>
      cases hcap : partition.newHostEventPort c m ev with
      | error e => simp [add_event_port, hos, hcap] at hok
      | ok ih =>
        cases hc : ports c with
        | some p => simp [add_event_port, hos, hcap, hc] at hok
        | none =>
          simp only [add_event_port, hos, hcap, hc, Except.ok.injEq,
            Prod.mk.injEq] at hok
          obtain ⟨-, hmm⟩ := hok
          subst hmm
          exact ⟨by simp [PortMap.insert],
            fun d hd => by simp [PortMap.insert, hd]⟩
  · intro hrm
    cases hc : ports h.connection_id with
    | none => simp [portHandleDrop, hc] at hrm
    | some p =>
      rw [portHandleDrop] at hrm
      rw [hc] at hrm
      simp only [DropResult.removed.injEq] at hrm
      subst hrm
      exact ⟨by simp [PortMap.remove],
        fun d hd => by simp [PortMap.remove, hd]⟩

/-- C10 witness: registering the message port at id 5 on the empty map
yields a map with the new entry at 5 and nothing at 9; removing id 5 from
the one-entry map yields nothing at 5 and the old value at 9. -/
theorem registration_frame_effect_witness :
    PortMap.insert PortMap.empty 5 ⟨PortType.message exMsgPort, Vtl.vtl0⟩ 5
      = some ⟨PortType.message exMsgPort, Vtl.vtl0⟩ ∧
    PortMap.insert PortMap.empty 5 ⟨PortType.message exMsgPort, Vtl.vtl0⟩ 9
      = PortMap.empty 9 ∧
    PortMap.remove exMapGate 5 5 = none ∧
    PortMap.remove exMapGate 5 9 = exMapGate 9 :=
  have h1 := (registration_frame_effect exPartitionOk PortMap.empty 5 Vtl.vtl0
    exMsgPort exEvtPortNoOs ⟨5, none⟩
    (PortMap.insert PortMap.empty 5 ⟨PortType.message exMsgPort, Vtl.vtl0⟩)
    ⟨5, none⟩).1 rfl
  have h2 := (registration_frame_effect exPartitionOk exMapGate 5 Vtl.vtl0
    exMsgPort exEvtPortNoOs ⟨5, none⟩ (PortMap.remove exMapGate 5)
    ⟨5, none⟩).2.2 rfl
  ⟨h1.1, h1.2 9 (by decide), h2.1, h2.2 9 (by decide)⟩

end Synic
